import Mathlib

/-!
Verification of the chat-registry, broadcast fan-out, relay validation and
polling-cursor logic of the trading-viewbot server (`index.js`), via a shallow
embedding of its state and operations.
-/

namespace TradingViewBot

/-- One persisted destination record: `{ id, username, addedAt }` as pushed by
`saveChatId` in `index.js` (line 52). -/
structure ChatRecord where
  id : String
  username : String
  addedAt : String
deriving Repr, DecidableEq

/-- State of the persisted snapshot file `chat_ids.json`: absent, present but
not valid JSON, or a parsed list of records. -/
inductive FileState where
  | missing
  | malformed
  | content (records : List ChatRecord)
deriving Repr, DecidableEq

/-- Process-wide mutable state of the server: the in-memory `savedChatIds`
array, the mutable `DEFAULT_CHAT_ID` binding, and the snapshot file. -/
structure BotState where
  savedChatIds : List ChatRecord
  defaultChatId : Option String
  chatIdsFile : FileState
deriving Repr, DecidableEq

/-- JavaScript falsiness of the `DEFAULT_CHAT_ID` binding: `undefined` (here
`none`) and the empty string are falsy; `if (!DEFAULT_CHAT_ID)` in
`index.js` line 57 tests exactly this. -/
def jsFalsy : Option String → Bool
  | none => true
  | some s => s == ""

/-- Registry load at process start (`index.js` lines 38-46): a missing file
leaves `savedChatIds = []`, a parse failure is caught and also leaves `[]`,
otherwise the parsed records are used. -/
def loadChatIds : FileState → List ChatRecord
  | .missing => []
  | .malformed => []
  | .content records => records

/-- Initial state at process start: `savedChatIds` from loading the snapshot
file, `DEFAULT_CHAT_ID` from the environment (`index.js` line 12). -/
def startState (envDefault : Option String) (file : FileState) : BotState :=
  { savedChatIds := loadChatIds file
    defaultChatId := envDefault
    chatIdsFile := file }

/-- Outcome of the synchronous `fs.writeFileSync` call. -/
inductive PersistOutcome where
  | ok
  | ioError (msg : String)
deriving Repr, DecidableEq

/-- The `saveChatId` function of `index.js` (lines 49-64) with the write
outcome made explicit. If the id already exists nothing happens and `false`
is returned. Otherwise the record is pushed to the in-memory array first;
then `writeFileSync` either succeeds (after which the default chat id is
auto-set when currently falsy and `true` is returned) or throws, in which
case the exception propagates to the caller while the pushed record stays in
the array and the default is left untouched. -/
def saveChatIdPersist (w : PersistOutcome) (st : BotState)
    (chatId username addedAt : String) : BotState × Except String Bool :=
  match st.savedChatIds.find? (fun c => c.id == chatId) with
  | some _ => (st, .ok false)
  | none =>
    let saved := st.savedChatIds ++ [{ id := chatId, username := username, addedAt := addedAt }]
    match w with
    | .ok =>
      let dflt := if jsFalsy st.defaultChatId then some chatId else st.defaultChatId
      ({ savedChatIds := saved, defaultChatId := dflt, chatIdsFile := .content saved }, .ok true)
    | .ioError m =>
      ({ st with savedChatIds := saved }, .error m)

/-- The `saveChatId` function on the happy path (the write succeeds). -/
def saveChatId (st : BotState) (chatId username addedAt : String) : BotState × Bool :=
  match saveChatIdPersist .ok st chatId username addedAt with
  | (st', .ok b) => (st', b)
  | (st', .error _) => (st', false)

/-- One registration request: chat id, username, timestamp. -/
structure Registration where
  chatId : String
  username : String
  addedAt : String
deriving Repr, DecidableEq

/-- Apply a sequence of registrations (successful writes) in order. -/
def applyRegs (st : BotState) (regs : List Registration) : BotState :=
  regs.foldl (fun s r => (saveChatId s r.chatId r.username r.addedAt).1) st

/- Basic unfolding lemmas. -/

lemma saveChatId_found (st : BotState) (chatId username addedAt : String)
    (h : st.savedChatIds.find? (fun c => c.id == chatId) = some r) :
    saveChatId st chatId username addedAt = (st, false) := by
  simp [saveChatId, saveChatIdPersist, h]

lemma saveChatId_not_found (st : BotState) (chatId username addedAt : String)
    (h : st.savedChatIds.find? (fun c => c.id == chatId) = none) :
    saveChatId st chatId username addedAt =
      ({ savedChatIds := st.savedChatIds ++ [{ id := chatId, username := username, addedAt := addedAt }]
         defaultChatId := if jsFalsy st.defaultChatId then some chatId else st.defaultChatId
         chatIdsFile := .content (st.savedChatIds ++ [{ id := chatId, username := username, addedAt := addedAt }]) },
       true) := by
  simp [saveChatId, saveChatIdPersist, h]

lemma find_none_of_not_mem (st : BotState) (chatId : String)
    (h : ∀ c ∈ st.savedChatIds, c.id ≠ chatId) :
    st.savedChatIds.find? (fun c => c.id == chatId) = none := by
  apply List.find?_eq_none.mpr
  intro c hc
  simpa using h c hc

lemma find?_append_of_none {α : Type} {p : α → Bool} {l1 : List α} (l2 : List α)
    (h : l1.find? p = none) : (l1 ++ l2).find? p = l2.find? p := by
  induction l1 with
  | nil => simp
  | cons a l ih =>
    cases hpa : p a with
    | true => rw [List.find?_cons_of_pos _ hpa] at h; exact absurd h (by simp)
    | false =>
      have hpa' : ¬p a = true := by simp [hpa]
      rw [List.find?_cons_of_neg _ hpa'] at h
      rw [List.cons_append, List.find?_cons_of_neg _ hpa']
      exact ih h

lemma saveChatId_default_preserved (st : BotState) (c u t : String)
    (h : jsFalsy st.defaultChatId = false) :
    (saveChatId st c u t).1.defaultChatId = st.defaultChatId := by
  cases hf : st.savedChatIds.find? (fun x => x.id == c) with
  | some r => rw [saveChatId_found st c u t hf]
  | none => rw [saveChatId_not_found st c u t hf]; simp [h]

lemma applyRegs_default_preserved (regs : List Registration) (st : BotState)
    (h : jsFalsy st.defaultChatId = false) :
    (applyRegs st regs).defaultChatId = st.defaultChatId := by
  induction regs generalizing st with
  | nil => rfl
  | cons r rs ih =>
    have hpres := saveChatId_default_preserved st r.chatId r.username r.addedAt h
    have hfals : jsFalsy (saveChatId st r.chatId r.username r.addedAt).1.defaultChatId = false := by
      rw [hpres]; exact h
    calc (applyRegs st (r :: rs)).defaultChatId
        = (applyRegs (saveChatId st r.chatId r.username r.addedAt).1 rs).defaultChatId := rfl
      _ = (saveChatId st r.chatId r.username r.addedAt).1.defaultChatId := ih _ hfals
      _ = st.defaultChatId := hpres

/-- C1, idempotent registration: with `id` previously unknown, the first
`saveChatId` returns `true`, the second returns `false`, leaves the state
(array, default, snapshot file — hence also the stored label) completely
unchanged, the registry grows by exactly one record across both calls and
ends up holding exactly one record with that id; moreover any single
`saveChatId` call preserves distinctness of the stored ids, so at most one
record per id ever exists. -/
theorem C1_register_idempotent (st : BotState) (chatId u1 t1 u2 t2 : String)
    (h : ∀ c ∈ st.savedChatIds, c.id ≠ chatId) :
    (saveChatId st chatId u1 t1).2 = true ∧
    (saveChatId (saveChatId st chatId u1 t1).1 chatId u2 t2).2 = false ∧
    (saveChatId (saveChatId st chatId u1 t1).1 chatId u2 t2).1 = (saveChatId st chatId u1 t1).1 ∧
    (saveChatId st chatId u1 t1).1.savedChatIds.length = st.savedChatIds.length + 1 ∧
    ((saveChatId (saveChatId st chatId u1 t1).1 chatId u2 t2).1.savedChatIds.filter
        (fun c => c.id == chatId)).length = 1 ∧
    (∀ st' : BotState, ∀ c u t : String, (st'.savedChatIds.map ChatRecord.id).Nodup →
      ((saveChatId st' c u t).1.savedChatIds.map ChatRecord.id).Nodup) := by
  have hfind : st.savedChatIds.find? (fun c => c.id == chatId) = none :=
    find_none_of_not_mem st chatId h
  have h1 := saveChatId_not_found st chatId u1 t1 hfind
  set rec1 : ChatRecord := { id := chatId, username := u1, addedAt := t1 } with hrec1
  have hfind2 : (saveChatId st chatId u1 t1).1.savedChatIds.find? (fun c => c.id == chatId)
      = some rec1 := by
    rw [h1]
    show (st.savedChatIds ++ [rec1]).find? (fun c => c.id == chatId) = some rec1
    rw [find?_append_of_none _ hfind]
    simp [hrec1]
  have h2 := saveChatId_found (saveChatId st chatId u1 t1).1 chatId u2 t2 hfind2
  refine ⟨by rw [h1], by rw [h2], by rw [h2], by rw [h1]; simp, ?_, ?_⟩
  · rw [h2, h1]
    show ((st.savedChatIds ++ [rec1]).filter (fun c => c.id == chatId)).length = 1
    rw [List.filter_append]
    have hnil : st.savedChatIds.filter (fun c => c.id == chatId) = [] := by
      rw [List.filter_eq_nil_iff]
      intro c hc
      simpa using h c hc
    rw [hnil]
    simp [hrec1]
  · intro st' c u t hnd
    cases hf : st'.savedChatIds.find? (fun x => x.id == c) with
    | some r => rw [saveChatId_found st' c u t hf]; exact hnd
    | none =>
      rw [saveChatId_not_found st' c u t hf]
      show ((st'.savedChatIds ++ [({ id := c, username := u, addedAt := t } : ChatRecord)]).map
        ChatRecord.id).Nodup
      rw [List.map_append, List.nodup_append]
      refine ⟨hnd, by simp, ?_⟩
      intro x hx
      simp only [List.mem_map] at hx
      obtain ⟨cr, hcr, hcrid⟩ := hx
      have := List.find?_eq_none.mp hf cr hcr
      simp only [List.map_cons, List.map_nil, List.mem_singleton]
      intro hxc
      apply this
      simp only [beq_iff_eq]
      exact hcrid.trans hxc

/-- Witness for C1 at a concrete state: registering id `"77"` twice from an
empty registry. -/
theorem C1_register_idempotent_witness :
    (saveChatId (startState none .missing) "77" "alice" "t1").2 = true ∧
    (saveChatId (saveChatId (startState none .missing) "77" "alice" "t1").1 "77" "bob" "t2").2
      = false := by
  have := C1_register_idempotent (startState none .missing) "77" "alice" "t1" "bob" "t2"
    (by intro c hc; simp [startState, loadChatIds] at hc)
  exact ⟨this.1, this.2.1⟩

/-- C2, default destination set at most once: a truthy (externally configured
or previously auto-set) default is never changed by any sequence of further
registrations; and starting from a fresh empty process with no configured
default, the first registered id `A` becomes the default and stays the
default through every later sequence of registrations. -/
theorem C2_default_once :
    (∀ st : BotState, ∀ regs : List Registration, jsFalsy st.defaultChatId = false →
      (applyRegs st regs).defaultChatId = st.defaultChatId) ∧
    (∀ A u t : String, A ≠ "" → ∀ regs : List Registration,
      (applyRegs (startState none .missing) (⟨A, u, t⟩ :: regs)).defaultChatId = some A) := by
  constructor
  · intro st regs h
    exact applyRegs_default_preserved regs st h
  · intro A u t hA regs
    have hfind : (startState none .missing).savedChatIds.find? (fun c => c.id == A) = none := by
      simp [startState, loadChatIds]
    have h1 := saveChatId_not_found (startState none .missing) A u t hfind
    have hstep : (saveChatId (startState none .missing) A u t).1.defaultChatId = some A := by
      rw [h1]
      simp [startState, jsFalsy]
    have hfals : jsFalsy (saveChatId (startState none .missing) A u t).1.defaultChatId = false := by
      rw [hstep]
      simp [jsFalsy, hA]
    calc (applyRegs (startState none .missing) (⟨A, u, t⟩ :: regs)).defaultChatId
        = (applyRegs (saveChatId (startState none .missing) A u t).1 regs).defaultChatId := rfl
      _ = (saveChatId (startState none .missing) A u t).1.defaultChatId :=
          applyRegs_default_preserved regs _ hfals
      _ = some A := hstep

/-- Witness for C2: registering `"A"` then `"B"`, `"C"` with no configured
default leaves the default at `"A"`; an externally configured default `"Z"`
survives those same registrations. -/
theorem C2_default_once_witness :
    (applyRegs (startState none .missing)
      [⟨"A", "u", "t1"⟩, ⟨"B", "v", "t2"⟩, ⟨"C", "w", "t3"⟩]).defaultChatId = some "A" ∧
    (applyRegs (startState (some "Z") .missing)
      [⟨"A", "u", "t1"⟩, ⟨"B", "v", "t2"⟩]).defaultChatId = some "Z" := by
  constructor
  · exact C2_default_once.2 "A" "u" "t1" (by decide) [⟨"B", "v", "t2"⟩, ⟨"C", "w", "t3"⟩]
  · exact C2_default_once.1 (startState (some "Z") .missing)
      [⟨"A", "u", "t1"⟩, ⟨"B", "v", "t2"⟩] (by decide)

/-- Outcome of one remote `sendMessage` call: the fetch resolves with
`data.ok = true`, resolves with `data.ok = false`, or throws. -/
inductive SendOutcome where
  | ok
  | apiFail
  | exn (msg : String)
deriving Repr, DecidableEq

/-- One entry of the `results` array built by the fan-out loops. -/
structure SendResult where
  chatId : String
  success : Bool
  error : Option String
deriving Repr, DecidableEq

/-- The result entry pushed for one chat (`index.js` lines 400-418 and
517-528): on a resolved fetch `{ chatId, success: data.ok }`, on a thrown
exception `{ chatId, success: false, error }`. -/
def sendResult (chat : ChatRecord) (o : SendOutcome) : SendResult :=
  match o with
  | .ok => { chatId := chat.id, success := true, error := none }
  | .apiFail => { chatId := chat.id, success := false, error := none }
  | .exn m => { chatId := chat.id, success := false, error := some m }

/-- The fan-out loop over `savedChatIds`: every iteration appends exactly one
result; a per-destination failure is caught inside the loop body and never
aborts the iteration. -/
def broadcastLoop : List ChatRecord → (String → SendOutcome) → List SendResult
  | [], _ => []
  | chat :: rest, outcome => sendResult chat (outcome chat.id) :: broadcastLoop rest outcome

/-- JSON object request body, restricted to string-valued fields. -/
structure JsonObj where
  fields : List (String × String)
deriving Repr, DecidableEq

/-- The `JSON.stringify` rendering of such an object. -/
def jsonStringify (o : JsonObj) : String :=
  "\x7b" ++ String.intercalate ","
    (o.fields.map (fun kv => "\"" ++ kv.1 ++ "\":\"" ++ kv.2 ++ "\"")) ++ "\x7d"

/-- Property access `o[k]` on a JSON object. -/
def lookupField (o : JsonObj) (k : String) : Option String :=
  (o.fields.find? (fun kv => kv.1 == k)).map (fun kv => kv.2)

/-- JavaScript `a || b` on an optional string: an absent or empty (falsy)
left operand falls through to the right operand. -/
def jsOrStr (a : Option String) (b : String) : String :=
  match a with
  | some s => if s == "" then b else s
  | none => b

/-- Request body reaching `handleWebhook`: plain text or a JSON object. -/
inductive Body where
  | str (s : String)
  | obj (o : JsonObj)
deriving Repr, DecidableEq

/-- Text extraction of `handleWebhook` (`index.js` lines 375-384): a string
body is taken whole; for a JSON body `body.text || body.message ||
body.alert || JSON.stringify(body)`. -/
def extractText : Body → String
  | .str s => s
  | .obj o =>
    jsOrStr (lookupField o "text")
      (jsOrStr (lookupField o "message")
        (jsOrStr (lookupField o "alert") (jsonStringify o)))

/-- The guard of `index.js` line 387: `!text || text === "\x7b\x7d" ||
text === quoted-empty-string` treats the message as absent. -/
def isEmptyMessage (t : String) : Bool :=
  t == "" || t == "\x7b\x7d" || t == "\"\""

/-- Response of `handleWebhook`: 400 `No message content received`, or 200
with `success:true`, `sent` (count of successes), `total` and `results`. -/
inductive WebhookResponse where
  | emptyMessage
  | ok (sent total : Nat) (results : List SendResult)
deriving Repr, DecidableEq

/-- The `handleWebhook` function (`index.js` lines 362-438), with the remote
send outcomes abstracted as `outcome`. -/
def handleWebhook (st : BotState) (body : Body) (outcome : String → SendOutcome) :
    WebhookResponse :=
  let text := extractText body
  if isEmptyMessage text then .emptyMessage
  else
    let results := broadcastLoop st.savedChatIds outcome
    .ok (results.filter (fun r => r.success)).length st.savedChatIds.length results

/-- Response of `POST /broadcast`: 400 `Missing text`, or 200 with
`success:true`, `sent` and `results`. -/
inductive BroadcastResponse where
  | missingText
  | ok (sent : Nat) (results : List SendResult)
deriving Repr, DecidableEq

/-- The `POST /broadcast` handler (`index.js` lines 508-535): it rejects a
falsy `text`, otherwise fans out to every saved chat and reports
`sent: results.length`. -/
def broadcastPost (st : BotState) (text : Option String) (outcome : String → SendOutcome) :
    BroadcastResponse :=
  if jsFalsy text then .missingText
  else
    let results := broadcastLoop st.savedChatIds outcome
    .ok results.length results

lemma broadcastLoop_getElem? (chats : List ChatRecord) (outcome : String → SendOutcome)
    (i : Nat) :
    (broadcastLoop chats outcome)[i]? = (chats[i]?).map (fun c => sendResult c (outcome c.id)) := by
  induction chats generalizing i with
  | nil => simp [broadcastLoop]
  | cons chat rest ih =>
    cases i with
    | zero => simp [broadcastLoop]
    | succ j => simpa [broadcastLoop] using ih j

lemma broadcastLoop_length (chats : List ChatRecord) (outcome : String → SendOutcome) :
    (broadcastLoop chats outcome).length = chats.length := by
  induction chats with
  | nil => rfl
  | cons chat rest ih => simpa [broadcastLoop] using ih

/-- C3 counterexample: with one registered destination whose send fails,
`POST /broadcast` reports the aggregate `sent = 1` although the number of
successful sends in `results` is `0`; the reported aggregate does not equal
`count(success==true)`, refuting the claim for the `/broadcast` endpoint. -/
theorem C3_counterexample :
    broadcastPost (saveChatId (startState none .missing) "A" "u" "t0").1 (some "hi")
        (fun _ => .apiFail)
      = .ok 1 [{ chatId := "A", success := false, error := none }] ∧
    ((broadcastLoop (saveChatId (startState none .missing) "A" "u" "t0").1.savedChatIds
        (fun _ => .apiFail)).filter (fun r => r.success)).length = 0 ∧
    (1 : Nat) ≠ 0 := by
  refine ⟨by decide, by decide, by decide⟩

/-- C3 as amended: for every registry state and per-destination outcome the
fan-out produces exactly one result per destination, in input order, each
entry depending only on its own destination's outcome (so one failure never
aborts or skips later sends); `handleWebhook` answers 200/success with
`sent = count(success==true)` and `total = len(results)`, while
`POST /broadcast` answers 200/success with its `sent` field equal to the
attempted count `len(results)` (not the succeeded count) — both succeed
overall even when individual sends fail. -/
theorem C3_fanout_amended (st : BotState) (outcome : String → SendOutcome)
    (body : Body) (t : String)
    (hbody : isEmptyMessage (extractText body) = false) (ht : jsFalsy (some t) = false) :
    (broadcastLoop st.savedChatIds outcome).length = st.savedChatIds.length ∧
    (∀ i : Nat, (broadcastLoop st.savedChatIds outcome)[i]?
        = (st.savedChatIds[i]?).map (fun c => sendResult c (outcome c.id))) ∧
    handleWebhook st body outcome
      = .ok ((broadcastLoop st.savedChatIds outcome).filter (fun r => r.success)).length
          (broadcastLoop st.savedChatIds outcome).length
          (broadcastLoop st.savedChatIds outcome) ∧
    broadcastPost st (some t) outcome
      = .ok (broadcastLoop st.savedChatIds outcome).length
          (broadcastLoop st.savedChatIds outcome) := by
  refine ⟨broadcastLoop_length st.savedChatIds outcome,
    fun i => broadcastLoop_getElem? st.savedChatIds outcome i, ?_, ?_⟩
  · rw [broadcastLoop_length]
    simp [handleWebhook, hbody]
  · simp [broadcastPost, ht]

/-- Witness for C3 as amended: two destinations, the second send failing;
`handleWebhook` reports `sent 1 total 2`, `/broadcast` reports `sent = 2`. -/
theorem C3_fanout_amended_witness :
    handleWebhook (applyRegs (startState none .missing) [⟨"A", "u", "t1"⟩, ⟨"B", "v", "t2"⟩])
        (.str "alert") (fun c => if c == "B" then .exn "boom" else .ok)
      = .ok 1 2 [{ chatId := "A", success := true, error := none },
                 { chatId := "B", success := false, error := some "boom" }] ∧
    broadcastPost (applyRegs (startState none .missing) [⟨"A", "u", "t1"⟩, ⟨"B", "v", "t2"⟩])
        (some "alert") (fun c => if c == "B" then .exn "boom" else .ok)
      = .ok 2 [{ chatId := "A", success := true, error := none },
               { chatId := "B", success := false, error := some "boom" }] := by
  have h := C3_fanout_amended
    (applyRegs (startState none .missing) [⟨"A", "u", "t1"⟩, ⟨"B", "v", "t2"⟩])
    (fun c => if c == "B" then .exn "boom" else .ok)
    (.str "alert") "alert" (by decide) (by decide)
  refine ⟨?_, ?_⟩
  · rw [h.2.2.1]; decide
  · rw [h.2.2.2]; decide

/-- C9 counterexample: a JSON body containing only `chat_id` (no `text`,
`message` or `alert` field) is not rejected with a missing-text error;
`handleWebhook` serializes the whole body and forwards it, attempting a
remote send to the registered destination. -/
theorem C9_counterexample :
    extractText (.obj ⟨[("chat_id", "123")]⟩) = "\x7b\"chat_id\":\"123\"\x7d" ∧
    handleWebhook (saveChatId (startState none .missing) "A" "u" "t0").1
        (.obj ⟨[("chat_id", "123")]⟩) (fun _ => .ok)
      = .ok 1 1 [{ chatId := "A", success := true, error := none }] := by
  refine ⟨by decide, by decide⟩

/-- C9 as amended: `POST /broadcast` rejects an absent or empty `text` with
the 400 missing-text error before any send; `handleWebhook` rejects with its
missing-content error exactly when the extracted text (`body.text`, else
`body.message`, else `body.alert`, else the serialized body; the raw body
for plain-text requests) is empty, a serialized empty object, or a quoted
empty string — a JSON body lacking those fields but holding other content is
forwarded rather than rejected. -/
theorem C9_missing_text_amended (st : BotState) (outcome : String → SendOutcome) :
    broadcastPost st none outcome = .missingText ∧
    broadcastPost st (some "") outcome = .missingText ∧
    (∀ body : Body, isEmptyMessage (extractText body) = true →
      handleWebhook st body outcome = .emptyMessage) ∧
    (∀ body : Body, isEmptyMessage (extractText body) = false →
      handleWebhook st body outcome ≠ .emptyMessage) := by
  refine ⟨by simp [broadcastPost, jsFalsy], by simp [broadcastPost, jsFalsy], ?_, ?_⟩
  · intro body hb
    simp [handleWebhook, hb]
  · intro body hb
    simp [handleWebhook, hb]

/-- Witness for C9 as amended: an empty plain-text body is rejected by
`handleWebhook`, and `/broadcast` without text is rejected. -/
theorem C9_missing_text_amended_witness :
    handleWebhook (startState none .missing) (.str "") (fun _ => .ok) = .emptyMessage ∧
    broadcastPost (startState none .missing) none (fun _ => .ok) = .missingText := by
  have h := C9_missing_text_amended (startState none .missing) (fun _ => .ok)
  exact ⟨h.2.2.1 (.str "") (by decide), h.1⟩

/-- C10, broadcasting with an empty registry succeeds: with no registered
destinations and a non-empty message, `handleWebhook` answers 200 with
`success:true`, `sent 0 total 0` and empty results, and `POST /broadcast`
answers 200 with `success:true`, `sent = 0` and empty results — no
missing-destination error exists on the broadcast path. -/
theorem C10_empty_registry_broadcast (st : BotState) (outcome : String → SendOutcome)
    (body : Body) (t : String)
    (hreg : st.savedChatIds = [])
    (hbody : isEmptyMessage (extractText body) = false) (ht : jsFalsy (some t) = false) :
    handleWebhook st body outcome = .ok 0 0 [] ∧
    broadcastPost st (some t) outcome = .ok 0 [] := by
  constructor
  · simp [handleWebhook, hbody, hreg, broadcastLoop]
  · simp [broadcastPost, ht, hreg, broadcastLoop]

/-- Witness for C10: a fresh process with no snapshot file and a concrete
alert text. -/
theorem C10_empty_registry_broadcast_witness :
    handleWebhook (startState none .missing) (.str "alert") (fun _ => .ok) = .ok 0 0 [] ∧
    broadcastPost (startState none .missing) (some "alert") (fun _ => .ok) = .ok 0 [] :=
  C10_empty_registry_broadcast (startState none .missing) (fun _ => .ok) (.str "alert") "alert"
    (by decide) (by decide) (by decide)

lemma saveChatId_snapshot_inv (st : BotState) (c u t : String)
    (h : loadChatIds st.chatIdsFile = st.savedChatIds) :
    loadChatIds (saveChatId st c u t).1.chatIdsFile = (saveChatId st c u t).1.savedChatIds := by
  cases hf : st.savedChatIds.find? (fun x => x.id == c) with
  | some r => rw [saveChatId_found st c u t hf]; exact h
  | none => rw [saveChatId_not_found st c u t hf]; rfl

lemma applyRegs_snapshot_inv (regs : List Registration) (st : BotState)
    (h : loadChatIds st.chatIdsFile = st.savedChatIds) :
    loadChatIds (applyRegs st regs).chatIdsFile = (applyRegs st regs).savedChatIds := by
  induction regs generalizing st with
  | nil => exact h
  | cons r rs ih =>
    exact ih (saveChatId st r.chatId r.username r.addedAt).1
      (saveChatId_snapshot_inv st r.chatId r.username r.addedAt h)

/-- C4 counterexample: register the single destination `"A"` in a process
with no configured default (so the default is auto-set to `"A"` and the
snapshot holds the one record), then reload from the persisted snapshot:
the records round-trip, but the reloaded default is unset (`DEFAULT_CHAT_ID`
comes from the environment, not the snapshot), differing from the default
before the reload. -/
theorem C4_counterexample :
    (saveChatId (startState none .missing) "A" "alice" "t1").1.defaultChatId = some "A" ∧
    (startState none (saveChatId (startState none .missing) "A" "alice" "t1").1.chatIdsFile).savedChatIds
      = (saveChatId (startState none .missing) "A" "alice" "t1").1.savedChatIds ∧
    (startState none (saveChatId (startState none .missing) "A" "alice" "t1").1.chatIdsFile).defaultChatId
      = none ∧
    (startState none (saveChatId (startState none .missing) "A" "alice" "t1").1.chatIdsFile).defaultChatId
      ≠ (saveChatId (startState none .missing) "A" "alice" "t1").1.defaultChatId := by
  refine ⟨by decide, by decide, by decide, by decide⟩

/-- C4 as amended: after any sequence of registrations the persisted
snapshot reloads to exactly the same records in the same order; the default
destination after a reload is whatever the environment configures (it is not
stored in the snapshot), so it matches the pre-reload default precisely when
a truthy default was externally configured, while an auto-assigned default
is lost on reload. -/
theorem C4_snapshot_roundtrip_amended (env env2 : Option String) (file : FileState)
    (regs : List Registration) :
    (startState env2 (applyRegs (startState env file) regs).chatIdsFile).savedChatIds
      = (applyRegs (startState env file) regs).savedChatIds ∧
    (startState env2 (applyRegs (startState env file) regs).chatIdsFile).defaultChatId = env2 ∧
    (jsFalsy env = false →
      (startState env (applyRegs (startState env file) regs).chatIdsFile).defaultChatId
        = (applyRegs (startState env file) regs).defaultChatId) := by
  refine ⟨?_, rfl, ?_⟩
  · exact applyRegs_snapshot_inv regs (startState env file) rfl
  · intro henv
    have := applyRegs_default_preserved regs (startState env file) henv
    rw [show (applyRegs (startState env file) regs).defaultChatId = env from this]
    rfl

/-- Witness for C4 as amended: two registrations with an externally
configured default `"Z"` reload to the same records and the same default. -/
theorem C4_snapshot_roundtrip_amended_witness :
    (startState (some "Z")
        (applyRegs (startState (some "Z") .missing) [⟨"A", "u", "t1"⟩, ⟨"B", "v", "t2"⟩]).chatIdsFile).savedChatIds
      = (applyRegs (startState (some "Z") .missing) [⟨"A", "u", "t1"⟩, ⟨"B", "v", "t2"⟩]).savedChatIds ∧
    (startState (some "Z")
        (applyRegs (startState (some "Z") .missing) [⟨"A", "u", "t1"⟩, ⟨"B", "v", "t2"⟩]).chatIdsFile).defaultChatId
      = (applyRegs (startState (some "Z") .missing) [⟨"A", "u", "t1"⟩, ⟨"B", "v", "t2"⟩]).defaultChatId := by
  have h := C4_snapshot_roundtrip_amended (some "Z") (some "Z") .missing
    [⟨"A", "u", "t1"⟩, ⟨"B", "v", "t2"⟩]
  exact ⟨h.1, h.2.2 (by decide)⟩

/-- The `/telegram-webhook` handler (`index.js` lines 451-489): it registers
the sender's chat id and always answers HTTP 200 `{ok:true}`, also when an
exception (such as a persistence failure inside `saveChatId`) was thrown —
the catch block still answers 200 so Telegram never disables delivery. -/
def telegramWebhookHandler (w : PersistOutcome) (st : BotState)
    (chatId username addedAt : String) : BotState × Nat :=
  match saveChatIdPersist w st chatId username addedAt with
  | (st', .ok _) => (st', 200)
  | (st', .error _) => (st', 200)

/-- C6, persistence failure does not roll back the in-memory insert: when
the synchronous snapshot write throws while registering a previously-unknown
id, the pushed record stays in the in-memory array (which is exactly the old
array plus the new record), the failure is reported to the caller as the
propagated exception, and the enclosing `/telegram-webhook` handler still
answers 200 — the process does not crash. -/
theorem C6_persist_failure_no_rollback (st : BotState) (chatId u t m : String)
    (h : ∀ c ∈ st.savedChatIds, c.id ≠ chatId) :
    (saveChatIdPersist (.ioError m) st chatId u t).1.savedChatIds
      = st.savedChatIds ++ [{ id := chatId, username := u, addedAt := t }] ∧
    ({ id := chatId, username := u, addedAt := t } : ChatRecord)
      ∈ (saveChatIdPersist (.ioError m) st chatId u t).1.savedChatIds ∧
    (saveChatIdPersist (.ioError m) st chatId u t).2 = .error m ∧
    (telegramWebhookHandler (.ioError m) st chatId u t).2 = 200 := by
  have hfind : st.savedChatIds.find? (fun c => c.id == chatId) = none :=
    find_none_of_not_mem st chatId h
  have hsave : saveChatIdPersist (.ioError m) st chatId u t
      = ({ st with savedChatIds :=
            st.savedChatIds ++ [{ id := chatId, username := u, addedAt := t }] }, .error m) := by
    simp [saveChatIdPersist, hfind]
  refine ⟨by rw [hsave], by rw [hsave]; simp, by rw [hsave], ?_⟩
  rw [telegramWebhookHandler, hsave]

/-- Witness for C6: a failing write while registering `"A"` in a fresh
process. -/
theorem C6_persist_failure_no_rollback_witness :
    (saveChatIdPersist (.ioError "disk full") (startState none .missing) "A" "u" "t").1.savedChatIds
      = [{ id := "A", username := "u", addedAt := "t" }] ∧
    (saveChatIdPersist (.ioError "disk full") (startState none .missing) "A" "u" "t").2
      = .error "disk full" := by
  have h := C6_persist_failure_no_rollback (startState none .missing) "A" "u" "t" "disk full"
    (by intro c hc; simp [startState, loadChatIds] at hc)
  exact ⟨by rw [h.1]; rfl, h.2.2.1⟩

/-- C7, registry load is total and non-fatal: a missing snapshot file loads
as the empty registry, malformed content (the caught parse failure) also
loads as the empty registry, and the process start state is defined — never
a failure — for every file state and environment. -/
theorem C7_load_total_non_fatal :
    loadChatIds .missing = [] ∧
    loadChatIds .malformed = [] ∧
    (∀ env : Option String,
      (startState env .missing).savedChatIds = [] ∧
      (startState env .malformed).savedChatIds = [] ∧
      (startState env .missing).defaultChatId = env) :=
  ⟨rfl, rfl, fun _ => ⟨rfl, rfl, rfl⟩⟩

/-- Result kinds of the secret-gated single-destination relay. -/
inductive RelayResult where
  | unauthorizedMissingSecret
  | unauthorizedInvalidSecret
  | missingDestination
  | missingText
  | sent (destination text : String)
deriving Repr, DecidableEq

/-- An inbound alert-relay request: optional credential, optional target
destination, optional message text. -/
structure AlertRequest where
  secret : Option String
  destination : Option String
  text : Option String
deriving Repr, DecidableEq

/-- Modelled from the spec: text validation and send of the strict relay
variant (its server file is absent from the sources; only the README and the
test script document it). A missing or empty `text` fails with the
missing-text error, otherwise the message is sent to the resolved
destination. -/
def relaySend (d : String) (req : AlertRequest) : RelayResult :=
  match req.text with
  | some t => if t == "" then .missingText else .sent d t
  | none => .missingText

/-- Modelled from the spec: destination resolution of the strict relay
variant — the request's destination if present, else the configured default,
else the missing-destination error. -/
def relayResolve (defaultDest : Option String) (req : AlertRequest) : RelayResult :=
  match req.destination with
  | some d => relaySend d req
  | none =>
    match defaultDest with
    | some d => relaySend d req
    | none => .missingDestination

/-- Modelled from the spec: the auth gate of the strict relay variant. When
a shared secret is configured, an absent request secret is the
missing-credential rejection, a non-matching one the invalid-credential
rejection, and an exact match proceeds to destination resolution. -/
def relaySingle (sharedSecret defaultDest : Option String) (req : AlertRequest) : RelayResult :=
  match sharedSecret with
  | none => relayResolve defaultDest req
  | some s =>
    match req.secret with
    | none => .unauthorizedMissingSecret
    | some p => if p == s then relayResolve defaultDest req else .unauthorizedInvalidSecret

lemma relayResolve_not_auth (d : Option String) (r : AlertRequest) :
    relayResolve d r ≠ .unauthorizedMissingSecret ∧
    relayResolve d r ≠ .unauthorizedInvalidSecret := by
  have hsend : ∀ dd : String, relaySend dd r ≠ .unauthorizedMissingSecret ∧
      relaySend dd r ≠ .unauthorizedInvalidSecret := by
    intro dd
    unfold relaySend
    cases r.text with
    | none => simp
    | some t => by_cases ht : t == "" <;> simp [ht]
  unfold relayResolve
  cases r.destination with
  | some dd => exact hsend dd
  | none =>
    cases d with
    | some dd => exact hsend dd
    | none => simp

/-- C5, auth gate on the alert relay: with a configured shared secret `S`, a
request with no secret is the missing-credential rejection, one with a wrong
secret the invalid-credential rejection, and one with exactly `S` proceeds
to destination resolution (whose outcomes are never the unauthorized
kinds). -/
theorem C5_auth_gate (S : String) (defaultDest : Option String)
    (dest text : Option String) (w : String) (hw : w ≠ S) :
    relaySingle (some S) defaultDest { secret := none, destination := dest, text := text }
      = .unauthorizedMissingSecret ∧
    relaySingle (some S) defaultDest { secret := some w, destination := dest, text := text }
      = .unauthorizedInvalidSecret ∧
    relaySingle (some S) defaultDest { secret := some S, destination := dest, text := text }
      = relayResolve defaultDest { secret := some S, destination := dest, text := text } ∧
    (∀ d : Option String, ∀ r : AlertRequest,
      relayResolve d r ≠ .unauthorizedMissingSecret ∧
      relayResolve d r ≠ .unauthorizedInvalidSecret) := by
  refine ⟨rfl, ?_, ?_, fun d r => relayResolve_not_auth d r⟩
  · simp [relaySingle, hw]
  · simp [relaySingle]

/-- Witness for C5: configured secret `"s3cret"`, default destination `"A"`,
message `"hi"`. -/
theorem C5_auth_gate_witness :
    relaySingle (some "s3cret") (some "A")
      { secret := none, destination := none, text := some "hi" }
      = .unauthorizedMissingSecret ∧
    relaySingle (some "s3cret") (some "A")
      { secret := some "wrong", destination := none, text := some "hi" }
      = .unauthorizedInvalidSecret ∧
    relaySingle (some "s3cret") (some "A")
      { secret := some "s3cret", destination := none, text := some "hi" }
      = .sent "A" "hi" := by
  have h := C5_auth_gate "s3cret" (some "A") none (some "hi") "wrong" (by decide)
  refine ⟨h.1, h.2.1, ?_⟩
  rw [h.2.2.1]
  decide

/-- One element of the `getUpdates` response array: its `update_id` and
whether it carries a `message`. -/
structure TgUpdate where
  update_id : Nat
  hasMessage : Bool
deriving Repr, DecidableEq

/-- The offset the polling fetch requests (`index.js` line 129):
`lastUpdateId + 1`, so only updates newer than the cursor are returned. -/
def getUpdatesOffset (lastUpdateId : Nat) : Nat := lastUpdateId + 1

/-- One polling cycle over a fetched batch (`index.js` lines 133-140): for
each update the cursor is first set to its `update_id`; then, when the
update carries a message, `processMessage` runs and may throw
(`procFails`), which aborts the remaining iterations (the exception is
caught by the cycle's catch block) while the cursor keeps the value already
assigned. Returns the cursor after the cycle. -/
def pollCycle : Nat → List TgUpdate → (Nat → Bool) → Nat
  | last, [], _ => last
  | _, u :: rest, procFails =>
    if u.hasMessage && procFails u.update_id then u.update_id
    else pollCycle u.update_id rest procFails

/-- Iterated polling cycles, each with its own fetched batch and processing
outcomes. -/
def runPolling : Nat → List (List TgUpdate × (Nat → Bool)) → Nat
  | c, [] => c
  | c, (us, f) :: rest => runPolling (pollCycle c us f) rest

/-- A trace of fetched batches is valid when every batch honours the
`getUpdates` contract for the cursor it was fetched at: all returned ids
exceed the cursor and arrive in increasing order. -/
inductive ValidTrace : Nat → List (List TgUpdate × (Nat → Bool)) → Prop where
  | nil (c : Nat) : ValidTrace c []
  | cons (c : Nat) (us : List TgUpdate) (f : Nat → Bool)
      (rest : List (List TgUpdate × (Nat → Bool)))
      (hgt : ∀ u ∈ us, c < u.update_id)
      (hsorted : us.Pairwise (fun a b => a.update_id < b.update_id))
      (htail : ValidTrace (pollCycle c us f) rest) :
      ValidTrace c ((us, f) :: rest)

lemma pollCycle_ge (c : Nat) (us : List TgUpdate) (f : Nat → Bool)
    (hgt : ∀ u ∈ us, c < u.update_id)
    (hsorted : us.Pairwise (fun a b => a.update_id < b.update_id)) :
    c ≤ pollCycle c us f := by
  induction us generalizing c with
  | nil => exact le_refl c
  | cons u rest ih =>
    have hcu : c < u.update_id := hgt u (List.mem_cons_self u rest)
    rw [List.pairwise_cons] at hsorted
    unfold pollCycle
    by_cases hcond : (u.hasMessage && f u.update_id) = true
    · simp only [hcond, if_true]
      exact le_of_lt hcu
    · simp only [hcond, if_false]
      exact le_trans (le_of_lt hcu) (ih u.update_id hsorted.1 hsorted.2)

lemma pollCycle_noFail_ge_all (c : Nat) (us : List TgUpdate)
    (hsorted : us.Pairwise (fun a b => a.update_id < b.update_id)) :
    ∀ u ∈ us, u.update_id ≤ pollCycle c us (fun _ => false) := by
  induction us generalizing c with
  | nil => intro u hu; exact absurd hu (List.not_mem_nil u)
  | cons u rest ih =>
    rw [List.pairwise_cons] at hsorted
    intro v hv
    unfold pollCycle
    simp only [Bool.and_false, if_false]
    rcases List.mem_cons.mp hv with hv0 | hv1
    · rw [hv0]
      exact pollCycle_ge u.update_id rest _ hsorted.1 hsorted.2
    · exact ih u.update_id hsorted.2 v hv1

lemma pollCycle_noFail_mem (c : Nat) (us : List TgUpdate) (h : us ≠ []) :
    pollCycle c us (fun _ => false) ∈ us.map (fun u => u.update_id) := by
  induction us generalizing c with
  | nil => exact absurd rfl h
  | cons u rest ih =>
    unfold pollCycle
    simp only [Bool.and_false, if_false]
    cases hrest : rest with
    | nil => simp [pollCycle]
    | cons v tail =>
      rw [List.map_cons, List.mem_cons]
      right
      rw [← hrest]
      exact ih u.update_id (by rw [hrest]; exact List.cons_ne_nil v tail)

lemma pollCycle_fail_at (c : Nat) (pre : List TgUpdate) (u : TgUpdate)
    (post : List TgUpdate) (f : Nat → Bool)
    (hpre : ∀ v ∈ pre, ¬(v.hasMessage = true ∧ f v.update_id = true))
    (hu : u.hasMessage = true) (hf : f u.update_id = true) :
    pollCycle c (pre ++ u :: post) f = u.update_id := by
  induction pre generalizing c with
  | nil =>
    unfold pollCycle
    simp [hu, hf]
  | cons v rest ih =>
    have hv : ¬(v.hasMessage = true ∧ f v.update_id = true) := hpre v (List.mem_cons_self v rest)
    have hvcond : (v.hasMessage && f v.update_id) = false := by
      cases hvm : v.hasMessage with
      | false => simp
      | true =>
        cases hvf : f v.update_id with
        | false => simp
        | true => exact absurd ⟨hvm, hvf⟩ hv
    rw [List.cons_append]
    unfold pollCycle
    simp only [hvcond, Bool.false_eq_true, if_false]
    exact ih v.update_id (fun w hw => hpre w (List.mem_cons_of_mem v hw))

lemma runPolling_mono (c : Nat) (batches : List (List TgUpdate × (Nat → Bool)))
    (h : ValidTrace c batches) : c ≤ runPolling c batches := by
  induction h with
  | nil => exact le_refl _
  | cons c us f rest hgt hsorted htail ih =>
    exact le_trans (pollCycle_ge c us f hgt hsorted) ih

/-- C8, the polling cursor is a monotone watermark: each fetch requests only
ids above the cursor (`offset = lastUpdateId + 1`); for a batch honouring
the `getUpdates` contract the cursor never decreases, whatever the
per-message processing outcomes; in a cycle with no processing failure the
cursor is advanced to the highest id of the batch (it dominates every seen
id and equals one of them); when processing first fails at some update, the
cursor still ends at exactly that update's id — its advancement preceded the
failure — so the next fetch starts strictly beyond it and the update is
never revisited; and across every valid sequence of cycles the cursor never
decreases. -/
theorem C8_poll_cursor_watermark (c : Nat) (us : List TgUpdate) (f : Nat → Bool)
    (hgt : ∀ u ∈ us, c < u.update_id)
    (hsorted : us.Pairwise (fun a b => a.update_id < b.update_id)) :
    getUpdatesOffset c = c + 1 ∧
    c ≤ pollCycle c us f ∧
    (∀ u ∈ us, u.update_id ≤ pollCycle c us (fun _ => false)) ∧
    (us ≠ [] → pollCycle c us (fun _ => false) ∈ us.map (fun u => u.update_id)) ∧
    (∀ pre u post, us = pre ++ u :: post →
      (∀ v ∈ pre, ¬(v.hasMessage = true ∧ f v.update_id = true)) →
      u.hasMessage = true → f u.update_id = true →
      pollCycle c us f = u.update_id ∧
      u.update_id < getUpdatesOffset (pollCycle c us f)) ∧
    (∀ batches, ValidTrace c batches → c ≤ runPolling c batches) := by
  refine ⟨rfl, pollCycle_ge c us f hgt hsorted,
    pollCycle_noFail_ge_all c us hsorted, pollCycle_noFail_mem c us, ?_,
    fun batches h => runPolling_mono c batches h⟩
  intro pre u post hsplit hpre hu hf
  have heq : pollCycle c us f = u.update_id := by
    rw [hsplit]
    exact pollCycle_fail_at c pre u post f hpre hu hf
  exact ⟨heq, by rw [heq]; exact Nat.lt_succ_self _⟩

/-- Witness for C8: cursor `0`, a two-update batch where processing the
first message throws; the cursor advances to `1` (the failing update's id)
and never below `0`. -/
theorem C8_poll_cursor_watermark_witness :
    pollCycle 0 [⟨1, true⟩, ⟨2, true⟩] (fun n => n == 1) = 1 ∧
    0 ≤ pollCycle 0 [⟨1, true⟩, ⟨2, true⟩] (fun n => n == 1) := by
  have h := C8_poll_cursor_watermark 0 [⟨1, true⟩, ⟨2, true⟩] (fun n => n == 1)
    (by decide) (by decide)
  refine ⟨(h.2.2.2.2.1 [] ⟨1, true⟩ [⟨2, true⟩] rfl (by simp) rfl (by decide)).1, h.2.1⟩

end TradingViewBot
